import Mathlib

/-!
Shallow embedding of `src/controllers/perkController.js`: the two Joi
schemas (`perkSchema`, `perkUpdateSchema`) and the six request handlers,
together with a model of the persistence collaborator (the Mongoose
`Perk` model, which is not part of this repository's source and is
therefore modelled from the spec).

Request bodies are association lists of JSON values restricted to the
shapes the schemas distinguish (strings and numbers).  Joi is embedded
with its default options: unknown keys rejected, first error reported.
-/

/-- A JSON value as far as the two schemas distinguish them: a string or
a number.  Numbers are rationals, matching the schemas' numeric range
checks. -/
inductive JsonVal where
  | str (s : String)
  | num (q : Rat)
deriving DecidableEq, Repr

/-- A request body: a JSON object as an association list of keys to
values. -/
abbrev Body := List (String × JsonVal)

/-- Look a key up in a request body (first occurrence). -/
def lookupKey (b : Body) (k : String) : Option JsonVal :=
  (b.find? (fun kv => kv.1 == k)).map Prod.snd

/-- The keys the two schemas recognise. -/
def allowedKeys : List String :=
  ["title", "description", "category", "discountPercent", "merchant"]

/-- The category enumeration of `perkSchema`:
`Joi.string().valid('food','tech','travel','fitness','other')`. -/
def categories : List String := ["food", "tech", "travel", "fitness", "other"]

/-- Keys of the body not recognised by the schemas.  Joi objects reject
unknown keys by default. -/
def unknownKeys (b : Body) : List String :=
  (b.map Prod.fst).filter (fun k => decide (k ∉ allowedKeys))

/-- `title: Joi.string().min(2).required()` — required, a string, length
at least 2 (Joi also rejects the empty string, which length < 2 covers). -/
def validateTitleReq (b : Body) : Except String String :=
  match lookupKey b "title" with
  | none => .error "title is required"
  | some (.num _) => .error "title must be a string"
  | some (.str s) =>
      if s.length < 2 then .error "title length must be at least 2 characters long"
      else .ok s

/-- `title: Joi.string().min(2)` of the update schema — optional, but
when present the same string and length rules apply. -/
def validateTitleOpt (b : Body) : Except String (Option String) :=
  match lookupKey b "title" with
  | none => .ok none
  | some (.num _) => .error "title must be a string"
  | some (.str s) =>
      if s.length < 2 then .error "title length must be at least 2 characters long"
      else .ok (some s)

/-- `Joi.string().allow('')` for `description` and `merchant` — optional
string, empty allowed. -/
def validateOptStr (b : Body) (k : String) : Except String (Option String) :=
  match lookupKey b k with
  | none => .ok none
  | some (.num _) => .error (k ++ " must be a string")
  | some (.str s) => .ok (some s)

/-- `category: Joi.string().valid(...)` — optional; when present it must
be a string in the five-value enumeration.  The create schema's
`.default('other')` is applied by the caller. -/
def validateCategoryOpt (b : Body) : Except String (Option String) :=
  match lookupKey b "category" with
  | none => .ok none
  | some (.num _) => .error "category must be a string"
  | some (.str s) =>
      if s ∈ categories then .ok (some s)
      else .error "category must be one of food, tech, travel, fitness, other"

/-- `discountPercent: Joi.number().min(0).max(100)` — optional; when
present it must be a number in [0, 100].  The create schema's
`.default(0)` is applied by the caller. -/
def validateDiscountOpt (b : Body) : Except String (Option Rat) :=
  match lookupKey b "discountPercent" with
  | none => .ok none
  | some (.str _) => .error "discountPercent must be a number"
  | some (.num q) =>
      if q < 0 then .error "discountPercent must be greater than or equal to 0"
      else if 100 < q then .error "discountPercent must be less than or equal to 100"
      else .ok (some q)

/-- The value `perkSchema.validate` produces on success: every field
present, defaults applied. -/
structure PerkInput where
  title : String
  description : Option String
  category : String
  discountPercent : Rat
  merchant : Option String
deriving DecidableEq, Repr

/-- The value `perkUpdateSchema.validate` produces on success: only the
submitted fields, no defaults. -/
structure PerkUpdate where
  title : Option String
  description : Option String
  category : Option String
  discountPercent : Option Rat
  merchant : Option String
deriving DecidableEq, Repr

/-- `perkSchema.validate(body)`: title required with length at least 2,
optional description and merchant strings, category constrained to the
enumeration with default `'other'`, discountPercent in [0,100] with
default 0, unknown keys rejected.  Returns the first error, else the
validated value with defaults applied. -/
def perkSchema_validate (b : Body) : Except String PerkInput :=
  match validateTitleReq b with
  | .error e => .error e
  | .ok t =>
  match validateOptStr b "description" with
  | .error e => .error e
  | .ok d =>
  match validateCategoryOpt b with
  | .error e => .error e
  | .ok c =>
  match validateDiscountOpt b with
  | .error e => .error e
  | .ok q =>
  match validateOptStr b "merchant" with
  | .error e => .error e
  | .ok m =>
  match unknownKeys b with
  | k :: _ => .error (k ++ " is not allowed")
  | [] =>
      .ok { title := t, description := d, category := c.getD "other",
            discountPercent := q.getD 0, merchant := m }

/-- `perkUpdateSchema.validate(body)`: the same per-field rules with
every field optional and no defaults, unknown keys rejected, and
`.min(1)` requiring at least one key in the payload. -/
def perkUpdateSchema_validate (b : Body) : Except String PerkUpdate :=
  match validateTitleOpt b with
  | .error e => .error e
  | .ok t =>
  match validateOptStr b "description" with
  | .error e => .error e
  | .ok d =>
  match validateCategoryOpt b with
  | .error e => .error e
  | .ok c =>
  match validateDiscountOpt b with
  | .error e => .error e
  | .ok q =>
  match validateOptStr b "merchant" with
  | .error e => .error e
  | .ok m =>
  match unknownKeys b with
  | k :: _ => .error (k ++ " is not allowed")
  | [] =>
      if b.length < 1 then .error "value must have at least 1 key"
      else .ok { title := t, description := d, category := c,
                 discountPercent := q, merchant := m }

example : perkSchema_validate [("title", .str "ab")] =
    .ok { title := "ab", description := none, category := "other",
          discountPercent := 0, merchant := none } := by rfl

example : (perkSchema_validate []).isOk = false := by rfl

example : (perkUpdateSchema_validate []).isOk = false := by rfl

example : perkUpdateSchema_validate [("discountPercent", .num 5)] =
    .ok { title := none, description := none, category := none,
          discountPercent := some 5, merchant := none } := by rfl

/-- Modelled from the spec: a persisted Perk document as stored by the
persistence collaborator (the Mongoose `Perk` model, whose source is not
in this repository) — the validated fields plus an `id` and a
`createdAt` timestamp assigned by the store on creation. -/
structure StoredPerk where
  id : Nat
  title : String
  description : Option String
  category : String
  discountPercent : Rat
  merchant : Option String
  createdAt : Nat
deriving DecidableEq, Repr

/-- Modelled from the spec: the state of the external document store —
the persisted perks plus a monotone counter producing fresh ids and
createdAt timestamps. -/
structure Store where
  perks : List StoredPerk
  nextId : Nat
deriving DecidableEq, Repr

/-- Modelled from the spec: `Perk.findById` — the single perk with the
given id, if any. -/
def Perk_findById (st : Store) (i : Nat) : Option StoredPerk :=
  st.perks.find? (fun p => p.id == i)

/-- Modelled from the spec: `Perk.create` — inserts a new perk with a
fresh id and createdAt, enforcing the store's uniqueness constraint on
the merchant value; a violation is reported as a duplicate-key error
(Mongo error code 11000). -/
def Perk_create (st : Store) (v : PerkInput) : Except Nat (StoredPerk × Store) :=
  if st.perks.any (fun p => p.merchant == v.merchant) then .error 11000
  else
    let p : StoredPerk :=
      { id := st.nextId, title := v.title, description := v.description,
        category := v.category, discountPercent := v.discountPercent,
        merchant := v.merchant, createdAt := st.nextId }
    .ok (p, { perks := st.perks ++ [p], nextId := st.nextId + 1 })

/-- The `$set` document of `findByIdAndUpdate`: every field present in
the validated update overwrites the stored value; absent fields are left
unchanged.  `id` and `createdAt` are never touched. -/
def applySet (p : StoredPerk) (u : PerkUpdate) : StoredPerk :=
  { p with
    title := u.title.getD p.title,
    description := match u.description with | some d => some d | none => p.description,
    category := u.category.getD p.category,
    discountPercent := u.discountPercent.getD p.discountPercent,
    merchant := match u.merchant with | some m => some m | none => p.merchant }

/-- Modelled from the spec: `Perk.findByIdAndUpdate(id, {$set: value},
{new: true})` — applies the partial merge to the identified perk and
returns the post-update document, or `none` when no perk has the id. -/
def Perk_findByIdAndUpdate (st : Store) (i : Nat) (u : PerkUpdate) :
    Option StoredPerk × Store :=
  match Perk_findById st i with
  | none => (none, st)
  | some p =>
      let p2 := applySet p u
      (some p2, { st with perks := st.perks.map (fun q => if q.id == i then p2 else q) })

/-- Modelled from the spec: `Perk.findByIdAndDelete(id)` — removes the
identified perk and returns it, or `none` when no perk has the id. -/
def Perk_findByIdAndDelete (st : Store) (i : Nat) :
    Option StoredPerk × Store :=
  match Perk_findById st i with
  | none => (none, st)
  | some p => (some p, { st with perks := st.perks.filter (fun q => q.id != i) })

/-- Modelled from the spec: `.sort({createdAt: -1})` — the store returns
query results ordered by createdAt descending. -/
def sortByCreatedAtDesc (l : List StoredPerk) : List StoredPerk :=
  l.insertionSort (fun a b => b.createdAt ≤ a.createdAt)

/-- Modelled from the spec: `Perk.find({title}).sort({createdAt: -1})` —
exact-match title query, newest first. -/
def Perk_find_byTitle (st : Store) (t : String) : List StoredPerk :=
  sortByCreatedAtDesc (st.perks.filter (fun p => p.title == t))

/-- Modelled from the spec: `Perk.find().sort({createdAt: -1})` — every
perk, newest first. -/
def Perk_find_all (st : Store) : List StoredPerk :=
  sortByCreatedAtDesc st.perks

/-- The JSON bodies the handlers respond with: a perk array, a perk
wrapped in an object (`{perk}`), a `{message}` object, or `{ok: true}`. -/
inductive RespBody where
  | perks (l : List StoredPerk)
  | perk (p : StoredPerk)
  | message (m : String)
  | okTrue
deriving DecidableEq, Repr

/-- An HTTP response: status code and JSON body. -/
structure HttpResponse where
  status : Nat
  body : RespBody
deriving DecidableEq, Repr

/-- The outcome of running a handler on a request and a store state:
the response sent, the store afterwards, how many persistence calls the
handler made, whether the error was forwarded to `next` (the shared
error channel), and — for the create handler — the perk value passed to
the persistence create call, when one was made. -/
structure HandlerResult where
  resp : HttpResponse
  store : Store
  dbCalls : Nat
  nextCalled : Bool
  createArg : Option PerkInput := none
deriving DecidableEq, Repr

/-- JavaScript truthiness of `req.query.title`: an absent parameter is
`undefined` (falsy) and a present empty string is falsy too. -/
def jsTruthy : Option String → Bool
  | none => false
  | some s => s ≠ ""

/-- `filterPerks`: if the title query parameter is truthy, query for
exact title match sorted by createdAt descending and respond 200;
otherwise respond 400 with no query. -/
def filterPerks (title : Option String) (st : Store) : HandlerResult :=
  if jsTruthy title then
    { resp := ⟨200, .perks (Perk_find_byTitle st (title.getD ""))⟩,
      store := st, dbCalls := 1, nextCalled := false }
  else
    { resp := ⟨400, .message "Title query parameter is required"⟩,
      store := st, dbCalls := 0, nextCalled := false }

/-- `getPerk`: look the perk up by id; 404 when absent, else 200 with
the perk wrapped in an object. -/
def getPerk (i : Nat) (st : Store) : HandlerResult :=
  match Perk_findById st i with
  | none =>
      { resp := ⟨404, .message "Perk not found"⟩,
        store := st, dbCalls := 1, nextCalled := false }
  | some p =>
      { resp := ⟨200, .perk p⟩, store := st, dbCalls := 1, nextCalled := false }

/-- `getAllPerks`: 200 with every perk, newest first. -/
def getAllPerks (st : Store) : HandlerResult :=
  { resp := ⟨200, .perks (Perk_find_all st)⟩,
    store := st, dbCalls := 1, nextCalled := false }

/-- `createPerk`: validate against `perkSchema`; on failure 400 with the
validator's message and no persistence call.  On success insert the
validated value; a duplicate-key error from the store yields 409 with
the duplicate-perk message; success yields 201 with the created perk
wrapped in an object. -/
def createPerk (b : Body) (st : Store) : HandlerResult :=
  match perkSchema_validate b with
  | .error m =>
      { resp := ⟨400, .message m⟩, store := st, dbCalls := 0, nextCalled := false }
  | .ok v =>
      match Perk_create st v with
      | .error code =>
          if code = 11000 then
            { resp := ⟨409, .message "Duplicate perk for this merchant"⟩,
              store := st, dbCalls := 1, nextCalled := false, createArg := some v }
          else
            { resp := ⟨500, .message "Internal server error"⟩,
              store := st, dbCalls := 1, nextCalled := true, createArg := some v }
      | .ok (p, st2) =>
          { resp := ⟨201, .perk p⟩, store := st2, dbCalls := 1,
            nextCalled := false, createArg := some v }

/-- `updatePerk`: validate against `perkUpdateSchema`; on failure 400
with the validator's message and no persistence call.  On success apply
the `$set` partial merge by id; 404 when no perk has the id, else 200
with the post-update perk wrapped in an object. -/
def updatePerk (i : Nat) (b : Body) (st : Store) : HandlerResult :=
  match perkUpdateSchema_validate b with
  | .error m =>
      { resp := ⟨400, .message m⟩, store := st, dbCalls := 0, nextCalled := false }
  | .ok u =>
      match Perk_findByIdAndUpdate st i u with
      | (none, st2) =>
          { resp := ⟨404, .message "Perk not found"⟩,
            store := st2, dbCalls := 1, nextCalled := false }
      | (some p, st2) =>
          { resp := ⟨200, .perk p⟩, store := st2, dbCalls := 1, nextCalled := false }

/-- `deletePerk`: delete by id; 404 when no perk has the id, else 200
with `{ok: true}`. -/
def deletePerk (i : Nat) (st : Store) : HandlerResult :=
  match Perk_findByIdAndDelete st i with
  | (none, st2) =>
      { resp := ⟨404, .message "Perk not found"⟩,
        store := st2, dbCalls := 1, nextCalled := false }
  | (some _, st2) =>
      { resp := ⟨200, .okTrue⟩, store := st2, dbCalls := 1, nextCalled := false }

example :
    (createPerk [("title", .str "Free Coffee"), ("merchant", .str "Acme")]
      ⟨[], 0⟩).resp.status = 201 := by rfl

example :
    (deletePerk 0 ⟨[⟨0, "ab", none, "other", 0, none, 0⟩], 1⟩).resp =
      ⟨200, .okTrue⟩ := by rfl

/-- Inversion of a successful create-schema validation: each component
validator succeeded, its value entered the result (with the category and
discountPercent defaults applied), and there was no unknown key. -/
theorem perkSchema_validate_ok (b : Body) (v : PerkInput)
    (h : perkSchema_validate b = .ok v) :
    validateTitleReq b = .ok v.title ∧
    validateOptStr b "description" = .ok v.description ∧
    (∃ c, validateCategoryOpt b = .ok c ∧ v.category = c.getD "other") ∧
    (∃ q, validateDiscountOpt b = .ok q ∧ v.discountPercent = q.getD 0) ∧
    validateOptStr b "merchant" = .ok v.merchant ∧
    unknownKeys b = [] := by
  unfold perkSchema_validate at h
  cases h1 : validateTitleReq b <;> simp only [h1] at h
  case error => cases h
  case ok t =>
  cases h2 : validateOptStr b "description" <;> simp only [h2] at h
  case error => cases h
  case ok d =>
  cases h3 : validateCategoryOpt b <;> simp only [h3] at h
  case error => cases h
  case ok c =>
  cases h4 : validateDiscountOpt b <;> simp only [h4] at h
  case error => cases h
  case ok q =>
  cases h5 : validateOptStr b "merchant" <;> simp only [h5] at h
  case error => cases h
  case ok m =>
  cases h6 : unknownKeys b <;> simp only [h6] at h
  case cons => cases h
  case nil =>
  cases h
  exact ⟨rfl, rfl, ⟨c, rfl, rfl⟩, ⟨q, rfl, rfl⟩, rfl, rfl⟩

/-- Inversion of a successful update-schema validation: each component
validator succeeded and its value entered the result unchanged, there
was no unknown key, and the body was non-empty. -/
theorem perkUpdateSchema_validate_ok (b : Body) (u : PerkUpdate)
    (h : perkUpdateSchema_validate b = .ok u) :
    validateTitleOpt b = .ok u.title ∧
    validateOptStr b "description" = .ok u.description ∧
    validateCategoryOpt b = .ok u.category ∧
    validateDiscountOpt b = .ok u.discountPercent ∧
    validateOptStr b "merchant" = .ok u.merchant ∧
    unknownKeys b = [] ∧ 1 ≤ b.length := by
  unfold perkUpdateSchema_validate at h
  cases h1 : validateTitleOpt b <;> simp only [h1] at h
  case error => cases h
  case ok t =>
  cases h2 : validateOptStr b "description" <;> simp only [h2] at h
  case error => cases h
  case ok d =>
  cases h3 : validateCategoryOpt b <;> simp only [h3] at h
  case error => cases h
  case ok c =>
  cases h4 : validateDiscountOpt b <;> simp only [h4] at h
  case error => cases h
  case ok q =>
  cases h5 : validateOptStr b "merchant" <;> simp only [h5] at h
  case error => cases h
  case ok m =>
  cases h6 : unknownKeys b <;> simp only [h6] at h
  case cons => cases h
  case nil =>
  by_cases hlen : b.length < 1
  · rw [if_pos hlen] at h
    cases h
  · rw [if_neg hlen] at h
    cases h
    exact ⟨rfl, rfl, rfl, rfl, rfl, rfl, Nat.le_of_not_lt hlen⟩

/-- A category value accepted by the validator with `some` is one of the
five enumerated categories. -/
theorem validateCategoryOpt_ok_mem (b : Body) (s : String)
    (h : validateCategoryOpt b = .ok (some s)) : s ∈ categories := by
  unfold validateCategoryOpt at h
  cases hl : lookupKey b "category" <;> simp only [hl] at h
  · cases h
  case some val =>
    cases val with
    | num q => cases h
    | str s2 =>
      simp only at h
      by_cases hmem : s2 ∈ categories
      · rw [if_pos hmem] at h
        cases h
        exact hmem
      · rw [if_neg hmem] at h
        cases h

/-- A discountPercent value accepted by the validator with `some` lies
in the closed interval [0, 100]. -/
theorem validateDiscountOpt_ok_range (b : Body) (q : Rat)
    (h : validateDiscountOpt b = .ok (some q)) : 0 ≤ q ∧ q ≤ 100 := by
  unfold validateDiscountOpt at h
  cases hl : lookupKey b "discountPercent" <;> simp only [hl] at h
  · cases h
  case some val =>
    cases val with
    | str s => cases h
    | num q2 =>
      simp only at h
      by_cases hlt : q2 < 0
      · rw [if_pos hlt] at h
        cases h
      · rw [if_neg hlt] at h
        by_cases hgt : 100 < q2
        · rw [if_pos hgt] at h
          cases h
        · rw [if_neg hgt] at h
          cases h
          exact ⟨le_of_not_lt hlt, le_of_not_lt hgt⟩

/-- A title accepted by the required-title validator is exactly the
string submitted under the `title` key. -/
theorem validateTitleReq_ok_lookup (b : Body) (t s : String)
    (hl : lookupKey b "title" = some (.str s))
    (h : validateTitleReq b = .ok t) : t = s := by
  unfold validateTitleReq at h
  simp only [hl] at h
  by_cases hlen : s.length < 2
  · rw [if_pos hlen] at h
    cases h
  · rw [if_neg hlen] at h
    cases h
    rfl

/-- An optional-string field accepted by the validator is exactly the
string submitted under its key. -/
theorem validateOptStr_ok_lookup (b : Body) (k : String) (m : Option String) (s : String)
    (hl : lookupKey b k = some (.str s))
    (h : validateOptStr b k = .ok m) : m = some s := by
  unfold validateOptStr at h
  simp only [hl] at h
  cases h
  rfl

/-- The request body omits the title, or submits a title string of
length below 2 — the situations of claim C1. -/
def titleInvalid (b : Body) : Prop :=
  lookupKey b "title" = none ∨
    ∃ s, lookupKey b "title" = some (.str s) ∧ s.length < 2

/-- C1: for every create request whose body omits `title` or has a title
string of length < 2, the create handler responds 400 with the
validator's message, makes no persistence call, and leaves the store
unchanged, so no record is persisted. -/
theorem createPerk_invalid_title_400 (b : Body) (st : Store)
    (h : titleInvalid b) :
    ∃ m, perkSchema_validate b = .error m ∧
      createPerk b st =
        { resp := ⟨400, .message m⟩, store := st, dbCalls := 0, nextCalled := false } := by
  have hv : ∃ m, validateTitleReq b = .error m := by
    rcases h with h | ⟨s, hs, hlen⟩
    · exact ⟨"title is required", by simp [validateTitleReq, h]⟩
    · refine ⟨"title length must be at least 2 characters long", ?_⟩
      unfold validateTitleReq
      rw [hs]
      simp only
      rw [if_pos hlen]
  obtain ⟨m, hm⟩ := hv
  have hval : perkSchema_validate b = .error m := by
    unfold perkSchema_validate
    rw [hm]
  exact ⟨m, hval, by simp [createPerk, hval]⟩

/-- Witness for C1: the empty body omits the title, and the handler run
on the empty store responds 400 without persisting. -/
theorem createPerk_invalid_title_400_witness :
    titleInvalid [] ∧
      ∃ m, perkSchema_validate [] = .error m ∧
        createPerk [] ⟨[], 0⟩ =
          { resp := ⟨400, .message m⟩, store := ⟨[], 0⟩,
            dbCalls := 0, nextCalled := false } :=
  ⟨Or.inl rfl, createPerk_invalid_title_400 [] ⟨[], 0⟩ (Or.inl rfl)⟩

/-- C2: whenever the create handler passes a perk value to the
persistence create call, that value's category is one of the five
enumerated categories and its discountPercent lies in [0, 100]. -/
theorem createPerk_arg_invariants (b : Body) (st : Store) (v : PerkInput)
    (h : (createPerk b st).createArg = some v) :
    v.category ∈ categories ∧ 0 ≤ v.discountPercent ∧ v.discountPercent ≤ 100 := by
  have hv : perkSchema_validate b = .ok v := by
    unfold createPerk at h
    cases hval : perkSchema_validate b <;> simp only [hval] at h
    case error e => simp at h
    case ok v2 =>
      cases hc : Perk_create st v2 <;> simp only [hc] at h
      case error code =>
        by_cases h11 : code = 11000
        · rw [if_pos h11] at h
          simp at h
          rw [← h]
        · rw [if_neg h11] at h
          simp at h
          rw [← h]
      case ok pr =>
        obtain ⟨p, st2⟩ := pr
        simp at h
        rw [← h]
  obtain ⟨-, -, ⟨c, hc, hcat⟩, ⟨q, hq, hdisc⟩, -, -⟩ := perkSchema_validate_ok b v hv
  refine ⟨?_, ?_, ?_⟩
  · cases c with
    | none => rw [hcat]; simp [categories]
    | some s => rw [hcat]; simpa using validateCategoryOpt_ok_mem b s hc
  · cases q with
    | none => rw [hdisc]; simp
    | some q0 =>
      rw [hdisc]
      simpa using (validateDiscountOpt_ok_range b q0 hq).1
  · cases q with
    | none => rw [hdisc]; norm_num
    | some q0 =>
      rw [hdisc]
      simpa using (validateDiscountOpt_ok_range b q0 hq).2

/-- Witness for C2: a create with only a title passes the defaulted
value to the create call, whose category is `other` and whose
discountPercent is 0. -/
theorem createPerk_arg_invariants_witness :
    (createPerk [("title", JsonVal.str "ab")] ⟨[], 0⟩).createArg =
      some ⟨"ab", none, "other", 0, none⟩ ∧
    (PerkInput.mk "ab" none "other" 0 none).category ∈ categories ∧
    0 ≤ (PerkInput.mk "ab" none "other" 0 none).discountPercent ∧
    (PerkInput.mk "ab" none "other" 0 none).discountPercent ≤ 100 :=
  ⟨rfl, createPerk_arg_invariants [("title", JsonVal.str "ab")] ⟨[], 0⟩
    ⟨"ab", none, "other", 0, none⟩ rfl⟩

/-- C7: for every update request with the empty object as body, the
update handler responds 400 with the at-least-one-key message from the
update schema, makes no persistence call, and leaves the store
unchanged. -/
theorem updatePerk_empty_body_400 (i : Nat) (st : Store) :
    updatePerk i [] st =
      { resp := ⟨400, .message "value must have at least 1 key"⟩,
        store := st, dbCalls := 0, nextCalled := false } := rfl

/-- C10: for every create request whose body contains a key outside the
five recognised keys, the create handler responds 400 with the
validator's message, makes no persistence call, and leaves the store
unchanged. -/
theorem createPerk_unknown_key_400 (b : Body) (st : Store) (k : String)
    (hk : k ∈ b.map Prod.fst) (hu : k ∉ allowedKeys) :
    ∃ m, perkSchema_validate b = .error m ∧
      createPerk b st =
        { resp := ⟨400, .message m⟩, store := st, dbCalls := 0, nextCalled := false } := by
  have hne : unknownKeys b ≠ [] := by
    intro h0
    have hmem : k ∈ unknownKeys b :=
      List.mem_filter.mpr ⟨hk, by simpa using hu⟩
    rw [h0] at hmem
    exact (List.not_mem_nil k) hmem
  have hval : ∃ m, perkSchema_validate b = .error m := by
    unfold perkSchema_validate
    cases h1 : validateTitleReq b
    case error e => exact ⟨e, rfl⟩
    case ok t =>
    cases h2 : validateOptStr b "description"
    case error e => exact ⟨e, rfl⟩
    case ok d =>
    cases h3 : validateCategoryOpt b
    case error e => exact ⟨e, rfl⟩
    case ok c =>
    cases h4 : validateDiscountOpt b
    case error e => exact ⟨e, rfl⟩
    case ok q =>
    cases h5 : validateOptStr b "merchant"
    case error e => exact ⟨e, rfl⟩
    case ok m =>
    cases h6 : unknownKeys b
    case nil => exact absurd h6 hne
    case cons k2 rest => exact ⟨_, rfl⟩
  obtain ⟨m, hm⟩ := hval
  exact ⟨m, hm, by simp [createPerk, hm]⟩

/-- Witness for C10: a body with a valid title and an extra `bogus` key
is rejected with 400 and no persistence call. -/
theorem createPerk_unknown_key_400_witness :
    "bogus" ∈ ([("title", JsonVal.str "ab"), ("bogus", JsonVal.num 1)] : Body).map Prod.fst ∧
    "bogus" ∉ allowedKeys ∧
    ∃ m, perkSchema_validate [("title", JsonVal.str "ab"), ("bogus", JsonVal.num 1)] = .error m ∧
      createPerk [("title", JsonVal.str "ab"), ("bogus", JsonVal.num 1)] ⟨[], 0⟩ =
        { resp := ⟨400, .message m⟩, store := ⟨[], 0⟩,
          dbCalls := 0, nextCalled := false } :=
  ⟨by decide, by decide,
    createPerk_unknown_key_400 [("title", JsonVal.str "ab"), ("bogus", JsonVal.num 1)]
      ⟨[], 0⟩ "bogus" (by decide) (by decide)⟩

/-- C3: for every update request with a valid body and an existing id,
the handler responds 200 with the post-update perk wrapped in an object,
the stored perk becomes the `$set` merge of the prior perk with the
submitted fields, every field absent from the request body keeps its
prior stored value (so no field is reset to its creation-time default),
and id and createdAt are untouched. -/
theorem updatePerk_merge_200 (i : Nat) (b : Body) (st : Store) (u : PerkUpdate)
    (p : StoredPerk)
    (hv : perkUpdateSchema_validate b = .ok u)
    (hf : Perk_findById st i = some p) :
    updatePerk i b st =
      { resp := ⟨200, .perk (applySet p u)⟩,
        store := { st with
          perks := st.perks.map (fun q => if q.id == i then applySet p u else q) },
        dbCalls := 1, nextCalled := false } ∧
    (applySet p u).id = p.id ∧ (applySet p u).createdAt = p.createdAt ∧
    (lookupKey b "title" = none → (applySet p u).title = p.title) ∧
    (lookupKey b "description" = none → (applySet p u).description = p.description) ∧
    (lookupKey b "category" = none → (applySet p u).category = p.category) ∧
    (lookupKey b "discountPercent" = none →
      (applySet p u).discountPercent = p.discountPercent) ∧
    (lookupKey b "merchant" = none → (applySet p u).merchant = p.merchant) := by
  obtain ⟨h1, h2, h3, h4, h5, -, -⟩ := perkUpdateSchema_validate_ok b u hv
  refine ⟨?_, rfl, rfl, ?_, ?_, ?_, ?_, ?_⟩
  · simp [updatePerk, hv, Perk_findByIdAndUpdate, hf]
  · intro hn
    have hx : validateTitleOpt b = .ok none := by simp [validateTitleOpt, hn]
    rw [hx] at h1
    have h0 : u.title = none := (Except.ok.inj h1).symm
    simp [applySet, h0]
  · intro hn
    have hx : validateOptStr b "description" = .ok none := by
      simp [validateOptStr, hn]
    rw [hx] at h2
    have h0 : u.description = none := (Except.ok.inj h2).symm
    simp [applySet, h0]
  · intro hn
    have hx : validateCategoryOpt b = .ok none := by simp [validateCategoryOpt, hn]
    rw [hx] at h3
    have h0 : u.category = none := (Except.ok.inj h3).symm
    simp [applySet, h0]
  · intro hn
    have hx : validateDiscountOpt b = .ok none := by simp [validateDiscountOpt, hn]
    rw [hx] at h4
    have h0 : u.discountPercent = none := (Except.ok.inj h4).symm
    simp [applySet, h0]
  · intro hn
    have hx : validateOptStr b "merchant" = .ok none := by simp [validateOptStr, hn]
    rw [hx] at h5
    have h0 : u.merchant = none := (Except.ok.inj h5).symm
    simp [applySet, h0]

/-- Witness for C3: updating only discountPercent on a stored perk
responds 200 with the merged perk and keeps the stored title. -/
theorem updatePerk_merge_200_witness :
    perkUpdateSchema_validate [("discountPercent", JsonVal.num 5)] =
      .ok ⟨none, none, none, some 5, none⟩ ∧
    Perk_findById ⟨[⟨0, "ab", none, "other", 0, none, 0⟩], 1⟩ 0 =
      some ⟨0, "ab", none, "other", 0, none, 0⟩ ∧
    (updatePerk 0 [("discountPercent", JsonVal.num 5)]
        ⟨[⟨0, "ab", none, "other", 0, none, 0⟩], 1⟩).resp =
      ⟨200, .perk (applySet ⟨0, "ab", none, "other", 0, none, 0⟩
        ⟨none, none, none, some 5, none⟩)⟩ ∧
    (applySet ⟨0, "ab", none, "other", 0, none, 0⟩
      ⟨none, none, none, some 5, none⟩).title = "ab" :=
  ⟨rfl, rfl, by
    have h := updatePerk_merge_200 0 [("discountPercent", JsonVal.num 5)]
      ⟨[⟨0, "ab", none, "other", 0, none, 0⟩], 1⟩
      ⟨none, none, none, some 5, none⟩
      ⟨0, "ab", none, "other", 0, none, 0⟩ rfl rfl
    rw [h.1], rfl⟩

/-- C4: for every create request whose validated value collides with a
stored perk on the merchant value, the persistence create call reports
the duplicate-key error and the handler responds 409 with the
duplicate-perk message, without forwarding to the generic error
channel and without changing the store. -/
theorem createPerk_duplicate_409 (b : Body) (st : Store) (v : PerkInput)
    (hv : perkSchema_validate b = .ok v)
    (hd : st.perks.any (fun p => p.merchant == v.merchant) = true) :
    createPerk b st =
      { resp := ⟨409, .message "Duplicate perk for this merchant"⟩,
        store := st, dbCalls := 1, nextCalled := false, createArg := some v } := by
  simp [createPerk, hv, Perk_create, hd]

/-- Witness for C4: creating a second perk for merchant `Acme` responds
409 and leaves the store unchanged. -/
theorem createPerk_duplicate_409_witness :
    perkSchema_validate [("title", JsonVal.str "cd"), ("merchant", JsonVal.str "Acme")] =
      .ok ⟨"cd", none, "other", 0, some "Acme"⟩ ∧
    (⟨[⟨0, "ab", none, "other", 0, some "Acme", 0⟩], 1⟩ : Store).perks.any
      (fun p => p.merchant == (PerkInput.mk "cd" none "other" 0 (some "Acme")).merchant) = true ∧
    createPerk [("title", JsonVal.str "cd"), ("merchant", JsonVal.str "Acme")]
        ⟨[⟨0, "ab", none, "other", 0, some "Acme", 0⟩], 1⟩ =
      { resp := ⟨409, .message "Duplicate perk for this merchant"⟩,
        store := ⟨[⟨0, "ab", none, "other", 0, some "Acme", 0⟩], 1⟩,
        dbCalls := 1, nextCalled := false,
        createArg := some ⟨"cd", none, "other", 0, some "Acme"⟩ } :=
  ⟨rfl, rfl,
    createPerk_duplicate_409 [("title", JsonVal.str "cd"), ("merchant", JsonVal.str "Acme")]
      ⟨[⟨0, "ab", none, "other", 0, some "Acme", 0⟩], 1⟩
      ⟨"cd", none, "other", 0, some "Acme"⟩ rfl rfl⟩

/-- C5 counterexample: updating a non-existent id with the invalid empty
body responds 400, not 404 — the handler validates the body before
looking the id up, so the claim "404 regardless of body validity"
fails. -/
theorem updatePerk_missing_id_counterexample :
    Perk_findById ⟨[], 0⟩ 0 = none ∧
    (updatePerk 0 [] ⟨[], 0⟩).resp.status = 400 ∧
    ¬ (updatePerk 0 [] ⟨[], 0⟩).resp.status = 404 := by decide

/-- C5 (amended): for every update request whose body passes the update
schema and whose path id matches no stored perk, the handler responds
404 with the not-found message. -/
theorem updatePerk_missing_id_404 (i : Nat) (b : Body) (st : Store) (u : PerkUpdate)
    (hv : perkUpdateSchema_validate b = .ok u)
    (hf : Perk_findById st i = none) :
    updatePerk i b st =
      { resp := ⟨404, .message "Perk not found"⟩,
        store := st, dbCalls := 1, nextCalled := false } := by
  simp [updatePerk, hv, Perk_findByIdAndUpdate, hf]

/-- Witness for C5 (amended): a valid one-field body on the empty store
responds 404. -/
theorem updatePerk_missing_id_404_witness :
    perkUpdateSchema_validate [("title", JsonVal.str "ab")] =
      .ok ⟨some "ab", none, none, none, none⟩ ∧
    Perk_findById ⟨[], 0⟩ 3 = none ∧
    updatePerk 3 [("title", JsonVal.str "ab")] ⟨[], 0⟩ =
      { resp := ⟨404, .message "Perk not found"⟩,
        store := ⟨[], 0⟩, dbCalls := 1, nextCalled := false } :=
  ⟨rfl, rfl,
    updatePerk_missing_id_404 3 [("title", JsonVal.str "ab")] ⟨[], 0⟩
      ⟨some "ab", none, none, none, none⟩ rfl rfl⟩

instance : IsTotal StoredPerk (fun a b => b.createdAt ≤ a.createdAt) :=
  ⟨fun a b => Nat.le_total b.createdAt a.createdAt⟩

instance : IsTrans StoredPerk (fun a b => b.createdAt ≤ a.createdAt) :=
  ⟨fun _ _ _ hab hbc => le_trans hbc hab⟩

/-- C6 counterexample: a present-but-empty title query parameter is
JS-falsy, so the handler responds 400 with no query instead of the 200
the claim requires for every present parameter. -/
theorem filterPerks_present_empty_counterexample :
    some "" ≠ (none : Option String) ∧
    (filterPerks (some "") ⟨[], 0⟩).resp.status = 400 ∧
    ¬ (filterPerks (some "") ⟨[], 0⟩).resp.status = 200 ∧
    (filterPerks (some "") ⟨[], 0⟩).dbCalls = 0 := by decide

/-- C6 (amended): if the title query parameter is absent or the empty
string, the handler responds 400 with the explanatory message and
performs no query; if it is present and non-empty, the handler responds
200 with a sequence that is exactly the perks whose title equals the
parameter, ordered by createdAt descending, and the store is
untouched. -/
theorem filterPerks_spec (t : Option String) (st : Store) :
    (jsTruthy t = false →
      filterPerks t st =
        { resp := ⟨400, .message "Title query parameter is required"⟩,
          store := st, dbCalls := 0, nextCalled := false }) ∧
    (∀ s, t = some s → s ≠ "" →
      (filterPerks t st).resp.status = 200 ∧ (filterPerks t st).store = st ∧
      ∃ l, (filterPerks t st).resp.body = .perks l ∧
        l.Perm (st.perks.filter (fun p => p.title == s)) ∧
        l.Sorted (fun a b => b.createdAt ≤ a.createdAt)) := by
  constructor
  · intro hf
    simp [filterPerks, hf]
  · intro s hs hne
    subst hs
    have ht : jsTruthy (some s) = true := by simp [jsTruthy, hne]
    refine ⟨?_, ?_, Perk_find_byTitle st s, ?_, ?_, ?_⟩
    · simp [filterPerks, ht]
    · simp [filterPerks, ht]
    · simp [filterPerks, ht, Perk_find_byTitle]
    · exact List.perm_insertionSort _ _
    · exact List.sorted_insertionSort _ _

/-- Witness for C6 (amended): with no parameter the handler responds
400; with `title=a` it responds 200. -/
theorem filterPerks_spec_witness :
    jsTruthy none = false ∧
    filterPerks none ⟨[], 0⟩ =
      { resp := ⟨400, .message "Title query parameter is required"⟩,
        store := ⟨[], 0⟩, dbCalls := 0, nextCalled := false } ∧
    (filterPerks (some "a") ⟨[], 0⟩).resp.status = 200 :=
  ⟨rfl, (filterPerks_spec none ⟨[], 0⟩).1 rfl,
    ((filterPerks_spec (some "a") ⟨[], 0⟩).2 "a" rfl (by decide)).1⟩

/-- C8: for every valid create payload that omits category and
discountPercent, run against a store with no colliding merchant, the
handler responds 201 with the created perk wrapped in an object; the
created perk has category `other` and discountPercent 0, and it carries
the submitted title and merchant values. -/
theorem createPerk_defaults_201 (b : Body) (st : Store) (v : PerkInput)
    (hv : perkSchema_validate b = .ok v)
    (hcat : lookupKey b "category" = none)
    (hdis : lookupKey b "discountPercent" = none)
    (hnodup : st.perks.any (fun p => p.merchant == v.merchant) = false) :
    ∃ p st2, Perk_create st v = .ok (p, st2) ∧
      createPerk b st =
        { resp := ⟨201, .perk p⟩, store := st2, dbCalls := 1,
          nextCalled := false, createArg := some v } ∧
      p.category = "other" ∧ p.discountPercent = 0 ∧
      (∀ t, lookupKey b "title" = some (.str t) → p.title = t) ∧
      (∀ m, lookupKey b "merchant" = some (.str m) → p.merchant = some m) := by
  obtain ⟨h1, -, ⟨c, hc, hcv⟩, ⟨q, hq, hqv⟩, h5, -⟩ := perkSchema_validate_ok b v hv
  have hc0 : c = none := by
    have hx : validateCategoryOpt b = .ok none := by simp [validateCategoryOpt, hcat]
    rw [hx] at hc
    exact (Except.ok.inj hc.symm)
  have hq0 : q = none := by
    have hx : validateDiscountOpt b = .ok none := by simp [validateDiscountOpt, hdis]
    rw [hx] at hq
    exact (Except.ok.inj hq.symm)
  have hvcat : v.category = "other" := by rw [hcv, hc0]; rfl
  have hvdis : v.discountPercent = 0 := by rw [hqv, hq0]; rfl
  have hcreate : Perk_create st v = .ok
      ({ id := st.nextId, title := v.title, description := v.description,
         category := v.category, discountPercent := v.discountPercent,
         merchant := v.merchant, createdAt := st.nextId },
       { perks := st.perks ++
           [{ id := st.nextId, title := v.title, description := v.description,
              category := v.category, discountPercent := v.discountPercent,
              merchant := v.merchant, createdAt := st.nextId }],
         nextId := st.nextId + 1 }) := by
    simp [Perk_create, hnodup]
  refine ⟨_, _, hcreate, ?_, hvcat, hvdis, ?_, ?_⟩
  · simp [createPerk, hv, hcreate]
  · intro t2 ht
    exact validateTitleReq_ok_lookup b v.title t2 ht h1
  · intro m2 hm
    exact validateOptStr_ok_lookup b "merchant" v.merchant m2 hm h5

/-- Witness for C8: the spec's example request, `{title: Free Coffee,
merchant: Acme}` on the empty store, yields 201 with the defaulted
perk. -/
theorem createPerk_defaults_201_witness :
    perkSchema_validate
        [("title", JsonVal.str "Free Coffee"), ("merchant", JsonVal.str "Acme")] =
      .ok ⟨"Free Coffee", none, "other", 0, some "Acme"⟩ ∧
    lookupKey [("title", JsonVal.str "Free Coffee"), ("merchant", JsonVal.str "Acme")]
      "category" = none ∧
    lookupKey [("title", JsonVal.str "Free Coffee"), ("merchant", JsonVal.str "Acme")]
      "discountPercent" = none ∧
    (⟨[], 0⟩ : Store).perks.any
      (fun p => p.merchant ==
        (PerkInput.mk "Free Coffee" none "other" 0 (some "Acme")).merchant) = false ∧
    ∃ p st2,
      Perk_create ⟨[], 0⟩ ⟨"Free Coffee", none, "other", 0, some "Acme"⟩ = .ok (p, st2) ∧
      createPerk [("title", JsonVal.str "Free Coffee"), ("merchant", JsonVal.str "Acme")]
          ⟨[], 0⟩ =
        { resp := ⟨201, .perk p⟩, store := st2, dbCalls := 1, nextCalled := false,
          createArg := some ⟨"Free Coffee", none, "other", 0, some "Acme"⟩ } ∧
      p.category = "other" ∧ p.discountPercent = 0 ∧
      (∀ t, lookupKey [("title", JsonVal.str "Free Coffee"),
          ("merchant", JsonVal.str "Acme")] "title" = some (.str t) → p.title = t) ∧
      (∀ m, lookupKey [("title", JsonVal.str "Free Coffee"),
          ("merchant", JsonVal.str "Acme")] "merchant" = some (.str m) →
        p.merchant = some m) :=
  ⟨rfl, rfl, rfl, rfl,
    createPerk_defaults_201
      [("title", JsonVal.str "Free Coffee"), ("merchant", JsonVal.str "Acme")]
      ⟨[], 0⟩ ⟨"Free Coffee", none, "other", 0, some "Acme"⟩ rfl rfl rfl rfl⟩

/-- C9: for every stored perk id, the first delete responds 200 with
`{ok: true}` and a second delete of the same id against the resulting
store responds 404 with the not-found message. -/
theorem deletePerk_twice_200_404 (i : Nat) (st : Store) (p : StoredPerk)
    (h : Perk_findById st i = some p) :
    (deletePerk i st).resp = ⟨200, .okTrue⟩ ∧
    (deletePerk i (deletePerk i st).store).resp = ⟨404, .message "Perk not found"⟩ := by
  have hdel : deletePerk i st =
      { resp := ⟨200, .okTrue⟩,
        store := { st with perks := st.perks.filter (fun q => q.id != i) },
        dbCalls := 1, nextCalled := false } := by
    simp [deletePerk, Perk_findByIdAndDelete, h]
  have h2 : Perk_findById
      { st with perks := st.perks.filter (fun q => q.id != i) } i = none := by
    have hall : ∀ x ∈ st.perks.filter (fun q => q.id != i),
        ¬ ((fun p => p.id == i) x = true) := by
      intro x hx
      have hne := (List.mem_filter.mp hx).2
      simpa using hne
    exact List.find?_eq_none.mpr hall
  refine ⟨by rw [hdel], ?_⟩
  rw [hdel]
  simp [deletePerk, Perk_findByIdAndDelete, h2]

/-- Witness for C9: deleting the only stored perk twice gives 200 then
404. -/
theorem deletePerk_twice_200_404_witness :
    Perk_findById ⟨[⟨0, "ab", none, "other", 0, none, 0⟩], 1⟩ 0 =
      some ⟨0, "ab", none, "other", 0, none, 0⟩ ∧
    (deletePerk 0 ⟨[⟨0, "ab", none, "other", 0, none, 0⟩], 1⟩).resp = ⟨200, .okTrue⟩ ∧
    (deletePerk 0
        (deletePerk 0 ⟨[⟨0, "ab", none, "other", 0, none, 0⟩], 1⟩).store).resp =
      ⟨404, .message "Perk not found"⟩ :=
  ⟨rfl, deletePerk_twice_200_404 0 ⟨[⟨0, "ab", none, "other", 0, none, 0⟩], 1⟩
    ⟨0, "ab", none, "other", 0, none, 0⟩ rfl⟩
